import Mathlib

/-!
Shallow embedding of the usage accounting and plan-enforcement subsystem
of the whatsapp-ai-dashboard repository (source: the usage-statistics
handler implementing `getUsageStatistics`, `recordDailyUsage`,
`getCurrentUsage`, and `generateUsageReport` over a drizzle/Postgres
store).

Modelling conventions:
* Timestamps are milliseconds since the epoch, as `Nat`.  The JavaScript
  `setHours(0,0,0,0)` / `setHours(23,59,59,999)` normalisation in the
  deployment's reference time zone is modelled as truncation to a
  multiple of `msPerDay` (UTC-like fixed reference zone).
* The relational store is a record of lists, one per table, in insertion
  order; a SQL `select ... where` is `List.filter`, `order by asc` is a
  stable sort with respect to the compared column, `count()` is `length`
  and `sum(col)` folds the column (ignoring SQL NULLs, i.e. `none`).
* The tenant `plan` column is modelled as `String`: the error-handling
  design of the system explicitly contemplates stored plan values
  outside the four known tiers, and the JavaScript object lookup
  `planLimits[tenantPlan]` yields `undefined` (modelled `none`) for a
  key outside the table, while `tenant[0]?.plan || 'free'` substitutes
  `'free'` exactly for the falsy values (missing row, empty string).
* `getCurrentUsage` reads the wall clock and derives `startOfToday` from
  it; `startOfMonth` (`new Date(year, month, 1)`) needs civil-calendar
  arithmetic that no claim constrains, so it is passed as a parameter.
* The handlers' `try/catch` log-then-rethrow wrapper only propagates
  storage failures, which have no counterpart in the pure model; the
  result type of `getCurrentUsage` keeps an explicit error channel
  (`Except`) so that statements about failing versus returning are
  expressible.
-/

namespace AppUsage

/-- Milliseconds per calendar day. -/
def msPerDay : Nat := 86400000

/-- `setHours(0,0,0,0)`: truncate a timestamp to midnight of its calendar
day in the reference time zone. -/
def startOfDay (t : Nat) : Nat := t / msPerDay * msPerDay

/-- `setHours(23,59,59,999)`: the last millisecond of the calendar day. -/
def endOfDay (t : Nat) : Nat := startOfDay t + (msPerDay - 1)

/-- `direction` column of the messages table. -/
inductive Direction where
  | inbound
  | outbound
deriving DecidableEq, Repr

/-- `connection_status` column of the whatsapp_connections table. -/
inductive ConnectionStatus where
  | connected
  | disconnected
  | pending
  | error
deriving DecidableEq, Repr

/-- Message row (the columns the usage subsystem reads). -/
structure Message where
  tenant_id : Nat
  direction : Direction
  is_bot_response : Bool
  created_at : Nat
deriving DecidableEq, Repr

/-- Knowledge-base document row (the columns the usage subsystem reads);
`file_size` is a nullable integer column. -/
structure KnowledgeBaseDocument where
  tenant_id : Nat
  is_processed : Bool
  file_size : Option Nat
  updated_at : Nat
deriving DecidableEq, Repr

/-- WhatsApp connection row (the columns the usage subsystem reads). -/
structure WhatsappConnection where
  tenant_id : Nat
  connection_status : ConnectionStatus
deriving DecidableEq, Repr

/-- Tenant row; `plan` kept as a raw string, see the header comment. -/
structure Tenant where
  id : Nat
  plan : String
deriving DecidableEq, Repr

/-- Row of the usage_statistics table. -/
structure UsageStatistics where
  id : Nat
  tenant_id : Nat
  date : Nat
  messages_sent : Nat
  messages_received : Nat
  ai_requests : Nat
  knowledge_base_queries : Nat
  active_connections : Nat
  created_at : Nat
deriving DecidableEq, Repr

/-- The relational store; `nextUsageId` models the serial primary key of
the usage_statistics table. -/
structure DB where
  tenants : List Tenant
  messages : List Message
  documents : List KnowledgeBaseDocument
  connections : List WhatsappConnection
  usage : List UsageStatistics
  nextUsageId : Nat
deriving DecidableEq, Repr

/-- Input of `getUsageStatistics`: tenant id plus optional range bounds. -/
structure GetUsageStatisticsInput where
  tenant_id : Nat
  start_date : Option Nat
  end_date : Option Nat
deriving DecidableEq, Repr

/-- The `where` clause of `getUsageStatistics`: always `tenant_id = ?`,
plus `date >= start_date` and `date <= end_date` when supplied. -/
def usageMatches (input : GetUsageStatisticsInput) (r : UsageStatistics) : Bool :=
  r.tenant_id == input.tenant_id
    && (match input.start_date with
        | some s => decide (s ≤ r.date)
        | none => true)
    && (match input.end_date with
        | some e => decide (r.date ≤ e)
        | none => true)

/-- Comparison used by `orderBy(asc(usageStatisticsTable.date))`. -/
def dateLe (a b : UsageStatistics) : Prop := a.date ≤ b.date

instance : DecidableRel dateLe := fun a b => Nat.decLe a.date b.date

instance : IsTotal UsageStatistics dateLe := ⟨fun a b => Nat.le_total a.date b.date⟩

instance : IsTrans UsageStatistics dateLe := ⟨fun _ _ _ h h2 => Nat.le_trans h h2⟩

/-- `getUsageStatistics`: filter by tenant and optional inclusive date
range, return ascending by date. -/
def getUsageStatistics (db : DB) (input : GetUsageStatisticsInput) : List UsageStatistics :=
  List.insertionSort dateLe (db.usage.filter (usageMatches input))

/-- Count query for outbound messages of the tenant in the day window. -/
def countMessagesSent (msgs : List Message) (tid s e : Nat) : Nat :=
  (msgs.filter (fun m =>
    m.tenant_id == tid && m.direction == Direction.outbound
      && decide (s ≤ m.created_at) && decide (m.created_at ≤ e))).length

/-- Count query for inbound messages of the tenant in the day window. -/
def countMessagesReceived (msgs : List Message) (tid s e : Nat) : Nat :=
  (msgs.filter (fun m =>
    m.tenant_id == tid && m.direction == Direction.inbound
      && decide (s ≤ m.created_at) && decide (m.created_at ≤ e))).length

/-- Count query for bot-flagged messages of the tenant in the day window. -/
def countAiRequests (msgs : List Message) (tid s e : Nat) : Nat :=
  (msgs.filter (fun m =>
    m.tenant_id == tid && m.is_bot_response
      && decide (s ≤ m.created_at) && decide (m.created_at ≤ e))).length

/-- Count query for processed knowledge-base documents of the tenant whose
`updated_at` lies in the day window. -/
def countKbQueries (docs : List KnowledgeBaseDocument) (tid s e : Nat) : Nat :=
  (docs.filter (fun d =>
    d.tenant_id == tid && d.is_processed
      && decide (s ≤ d.updated_at) && decide (d.updated_at ≤ e))).length

/-- Count query for the tenant's connections currently in `connected`
status (no date filter). -/
def countActiveConnections (conns : List WhatsappConnection) (tid : Nat) : Nat :=
  (conns.filter (fun c =>
    c.tenant_id == tid && c.connection_status == ConnectionStatus.connected)).length

/-- The `where` clause shared by the existence check and the update of
`recordDailyUsage`: `tenant_id = ? and date = ?`. -/
def usageKeyMatches (tid nd : Nat) (r : UsageStatistics) : Bool :=
  r.tenant_id == tid && r.date == nd

/-- The `set({...})` clause of the update path: replace exactly the five
count columns, leaving id, tenant_id, date and created_at untouched. -/
def applyCounts (ms mr ai kb ac : Nat) (r : UsageStatistics) : UsageStatistics :=
  { r with
    messages_sent := ms
    messages_received := mr
    ai_requests := ai
    knowledge_base_queries := kb
    active_connections := ac }

/-- `recordDailyUsage`: normalise the date, count the day's activity, and
upsert the row keyed by `(tenantId, normalizedDate)`.  The first component
is the row returned by `.returning()[0]` (an `Option`, as JavaScript
indexing of an empty result yields `undefined`); the second is the store
after the write.  `now` models the database default for `created_at` on
insert. -/
def recordDailyUsage (db : DB) (tenantId date now : Nat) : Option UsageStatistics × DB :=
  let normalizedDate := startOfDay date
  let startTs := normalizedDate
  let endTs := normalizedDate + (msPerDay - 1)
  let messagesSent := countMessagesSent db.messages tenantId startTs endTs
  let messagesReceived := countMessagesReceived db.messages tenantId startTs endTs
  let aiRequestCount := countAiRequests db.messages tenantId startTs endTs
  let kbQueryCount := countKbQueries db.documents tenantId startTs endTs
  let activeConnectionCount := countActiveConnections db.connections tenantId
  let existingRecord := db.usage.filter (usageKeyMatches tenantId normalizedDate)
  if existingRecord.length > 0 then
    let newUsage := db.usage.map (fun r =>
      if usageKeyMatches tenantId normalizedDate r then
        applyCounts messagesSent messagesReceived aiRequestCount kbQueryCount
          activeConnectionCount r
      else r)
    ((newUsage.filter (usageKeyMatches tenantId normalizedDate)).head?,
      { db with usage := newUsage })
  else
    let newRecord : UsageStatistics :=
      { id := db.nextUsageId
        tenant_id := tenantId
        date := normalizedDate
        messages_sent := messagesSent
        messages_received := messagesReceived
        ai_requests := aiRequestCount
        knowledge_base_queries := kbQueryCount
        active_connections := activeConnectionCount
        created_at := now }
    (some newRecord,
      { db with usage := db.usage ++ [newRecord], nextUsageId := db.nextUsageId + 1 })

/-- Plan quota ceilings. -/
structure PlanLimit where
  max_messages_per_month : Nat
  max_ai_requests_per_month : Nat
  max_storage_mb : Nat
deriving DecidableEq, Repr

/-- The literal `planLimits` object of `getCurrentUsage`; JavaScript
property lookup with a key outside the four tiers yields `undefined`,
modelled as `none`. -/
def planLimits (plan : String) : Option PlanLimit :=
  if plan == "free" then some ⟨100, 50, 10⟩
  else if plan == "basic" then some ⟨1000, 500, 100⟩
  else if plan == "premium" then some ⟨10000, 5000, 1000⟩
  else if plan == "enterprise" then some ⟨100000, 50000, 10000⟩
  else none

/-- The snapshot returned by `getCurrentUsage`. -/
structure CurrentUsageSnapshot where
  messages_today : Nat
  messages_this_month : Nat
  ai_requests_today : Nat
  ai_requests_this_month : Nat
  storage_used_mb : Nat
  plan_limits : Option PlanLimit
deriving DecidableEq, Repr

/-- Error channel for the current-usage projector (the specification's
NotFound condition); kept so that failing versus returning a snapshot is
expressible about the code. -/
inductive UsageError where
  | notFound
deriving DecidableEq, Repr

/-- `tenant[0]?.plan || 'free'`: the first tenant row with the given id,
falling back to `'free'` exactly when the value is falsy — the row is
missing or the stored plan is the empty string. -/
def tenantPlanOf (tenants : List Tenant) (tenantId : Nat) : String :=
  match (tenants.filter (fun t => t.id == tenantId)).head? with
  | some t => if t.plan == "" then "free" else t.plan
  | none => "free"

/-- `Math.ceil(a / b)` for nonnegative integers (`b > 0`). -/
def mathCeilDiv (a b : Nat) : Nat := (a + b - 1) / b

/-- `sum(file_size)` over the tenant's knowledge-base documents; SQL SUM
ignores NULL values, and a NULL total is coerced to 0 by `|| 0`. -/
def sumFileSizes (docs : List KnowledgeBaseDocument) (tenantId : Nat) : Nat :=
  (docs.filter (fun d => d.tenant_id == tenantId)).foldl
    (fun acc d => acc + d.file_size.getD 0) 0

/-- `getCurrentUsage`: live counts for today and the current month, the
storage estimate, and the plan-limit lookup.  `now` is the wall clock;
`startOfMonth` is `new Date(year, month, 1)` of `now`, passed as a
parameter (see header).  The source performs no tenant-existence check
and never constructs an error on this path. -/
def getCurrentUsage (db : DB) (tenantId now startOfMonth : Nat) :
    Except UsageError CurrentUsageSnapshot :=
  let startOfToday := startOfDay now
  let tenantPlan := tenantPlanOf db.tenants tenantId
  let messagesToday := (db.messages.filter (fun m =>
    m.tenant_id == tenantId && decide (startOfToday ≤ m.created_at))).length
  let messagesThisMonth := (db.messages.filter (fun m =>
    m.tenant_id == tenantId && decide (startOfMonth ≤ m.created_at))).length
  let aiRequestsToday := (db.messages.filter (fun m =>
    m.tenant_id == tenantId && m.is_bot_response
      && decide (startOfToday ≤ m.created_at))).length
  let aiRequestsThisMonth := (db.messages.filter (fun m =>
    m.tenant_id == tenantId && m.is_bot_response
      && decide (startOfMonth ≤ m.created_at))).length
  let totalSizeBytes := sumFileSizes db.documents tenantId
  let storageUsedMb := mathCeilDiv totalSizeBytes (1024 * 1024)
  Except.ok
    { messages_today := messagesToday
      messages_this_month := messagesThisMonth
      ai_requests_today := aiRequestsToday
      ai_requests_this_month := aiRequestsThisMonth
      storage_used_mb := storageUsedMb
      plan_limits := planLimits tenantPlan }

/-- Summary block of a usage report. -/
structure ReportSummary where
  total_messages : Nat
  total_ai_requests : Nat
  avg_daily_messages : Nat
  peak_day : Option Nat
  peak_day_messages : Nat
deriving DecidableEq, Repr

/-- One entry of the report's daily breakdown. -/
structure DailyBreakdownEntry where
  date : Nat
  messages_sent : Nat
  messages_received : Nat
  ai_requests : Nat
deriving DecidableEq, Repr

/-- A usage report. -/
structure UsageReport where
  summary : ReportSummary
  daily_breakdown : List DailyBreakdownEntry
deriving DecidableEq, Repr

/-- `stat.messages_sent + stat.messages_received`, the per-day message
total used by the report loop. -/
def dayMessagesOf (r : UsageStatistics) : Nat := r.messages_sent + r.messages_received

/-- Mutable accumulator of the report loop (`totalMessages`,
`totalAiRequests`, `peakDay`, `peakDayMessages`). -/
structure ReportAcc where
  totalMessages : Nat
  totalAiRequests : Nat
  peakDay : Option Nat
  peakDayMessages : Nat
deriving DecidableEq, Repr

/-- One iteration of the report loop: add the day's totals and update the
peak when the day strictly exceeds the best so far. -/
def reportStep (acc : ReportAcc) (stat : UsageStatistics) : ReportAcc :=
  let dayMessages := dayMessagesOf stat
  { totalMessages := acc.totalMessages + dayMessages
    totalAiRequests := acc.totalAiRequests + stat.ai_requests
    peakDay := if dayMessages > acc.peakDayMessages then some stat.date else acc.peakDay
    peakDayMessages :=
      if dayMessages > acc.peakDayMessages then dayMessages else acc.peakDayMessages }

/-- The `where` clause of the report query: tenant plus inclusive bounds. -/
def reportRangeFilter (tenantId sd ed : Nat) (r : UsageStatistics) : Bool :=
  r.tenant_id == tenantId && decide (sd ≤ r.date) && decide (r.date ≤ ed)

/-- The report's underlying query: in-range rows ascending by date. -/
def reportRecords (db : DB) (tenantId sd ed : Nat) : List UsageStatistics :=
  List.insertionSort dateLe (db.usage.filter (reportRangeFilter tenantId sd ed))

/-- `Math.round(a / b)` for nonnegative integers (`b > 0`): round half up. -/
def mathRoundDiv (a b : Nat) : Nat := (2 * a + b) / (2 * b)

/-- `generateUsageReport`: fold the in-range rows into summary totals and
the peak day, divide for the average (`usageStats.length || 1` guards the
empty case), and project the daily breakdown. -/
def generateUsageReport (db : DB) (tenantId startDate endDate : Nat) : UsageReport :=
  let usageStats := reportRecords db tenantId startDate endDate
  let acc := usageStats.foldl reportStep ⟨0, 0, none, 0⟩
  let dayCount := if usageStats.length == 0 then 1 else usageStats.length
  let avgDailyMessages := mathRoundDiv acc.totalMessages dayCount
  { summary :=
      { total_messages := acc.totalMessages
        total_ai_requests := acc.totalAiRequests
        avg_daily_messages := avgDailyMessages
        peak_day := acc.peakDay
        peak_day_messages := acc.peakDayMessages }
    daily_breakdown := usageStats.map (fun stat =>
      { date := stat.date
        messages_sent := stat.messages_sent
        messages_received := stat.messages_received
        ai_requests := stat.ai_requests }) }

/-- An empty store. -/
def emptyDB : DB := ⟨[], [], [], [], [], 1⟩

/-- A store whose only tenant carries a stored plan value outside the four
known tiers. -/
def goldDB : DB := ⟨[⟨1, "gold"⟩], [], [], [], [], 1⟩

/-- A store whose only tenant owns a single knowledge-base document of
one byte. -/
def oneByteDB : DB := ⟨[⟨1, "free"⟩], [], [⟨1, false, some 1, 0⟩], [], [], 1⟩

/-- A store seeded with one usage row for tenant 1 on day 0 carrying
`messages_sent = 10`, while live activity is empty (the specification's
overwrite-not-increment scenario). -/
def seededDB : DB := ⟨[], [], [], [], [⟨1, 1, 0, 10, 0, 0, 0, 0, 0⟩], 2⟩

/-- A store with one usage row in range whose message totals are zero
(`ai_requests = 5` keeps the row visibly nonempty). -/
def zeroPeakDB : DB := ⟨[], [], [], [], [⟨1, 1, 0, 0, 0, 5, 0, 0, 0⟩], 2⟩

/-- The update applied to a row by the update path of
`recordDailyUsage db t d _`: rows matching the tenant-day key get the
freshly computed counts, others are untouched. -/
def updOf (db : DB) (t d : Nat) : UsageStatistics → UsageStatistics := fun r =>
  if usageKeyMatches t (startOfDay d) r then
    applyCounts (countMessagesSent db.messages t (startOfDay d) (endOfDay d))
      (countMessagesReceived db.messages t (startOfDay d) (endOfDay d))
      (countAiRequests db.messages t (startOfDay d) (endOfDay d))
      (countKbQueries db.documents t (startOfDay d) (endOfDay d))
      (countActiveConnections db.connections t) r
  else r

/-- The row inserted by the insert path of `recordDailyUsage db t d now`. -/
def newRecordOf (db : DB) (t d now : Nat) : UsageStatistics :=
  { id := db.nextUsageId
    tenant_id := t
    date := startOfDay d
    messages_sent := countMessagesSent db.messages t (startOfDay d) (endOfDay d)
    messages_received := countMessagesReceived db.messages t (startOfDay d) (endOfDay d)
    ai_requests := countAiRequests db.messages t (startOfDay d) (endOfDay d)
    knowledge_base_queries := countKbQueries db.documents t (startOfDay d) (endOfDay d)
    active_connections := countActiveConnections db.connections t
    created_at := now }

/-- At most one usage row per `(tenant_id, date)` key. -/
def UniqueKeys (l : List UsageStatistics) : Prop :=
  ∀ tid nd : Nat, (l.filter (usageKeyMatches tid nd)).length ≤ 1

/-- Run a sequence of `recordDailyUsage` calls
(`(tenantId, date, now)` triples) against the store. -/
def applyCalls (db : DB) : List (Nat × Nat × Nat) → DB
  | [] => db
  | c :: rest => applyCalls (recordDailyUsage db c.1 c.2.1 c.2.2).2 rest

/-- Sum of per-day message totals (`sent + received`) over a row list. -/
def sumTotals (l : List UsageStatistics) : Nat := (l.map dayMessagesOf).sum

/-- Sum of `ai_requests` over a row list. -/
def sumAiRequests (l : List UsageStatistics) : Nat :=
  (l.map (fun r => r.ai_requests)).sum

/-- Maximum per-day message total over a row list (0 when empty). -/
def maxTotal : List UsageStatistics → Nat
  | [] => 0
  | x :: l => max (dayMessagesOf x) (maxTotal l)

/-- Date of the first row whose per-day message total equals `m`. -/
def firstPeakDay (m : Nat) (l : List UsageStatistics) : Option Nat :=
  (l.find? (fun r => dayMessagesOf r == m)).map (fun r => r.date)

/-- C1, counterexample: for a tenant id referencing no tenant row,
`getCurrentUsage` does not fail with a not-found error — it returns a
usage snapshot (with the free tier's limits), because the source reads
`tenant[0]?.plan || 'free'` and performs no existence check. -/
theorem getCurrentUsage_missing_tenant_returns_ok :
    emptyDB.tenants = []
      ∧ getCurrentUsage emptyDB 999 0 0 =
          Except.ok ⟨0, 0, 0, 0, 0, some ⟨100, 50, 10⟩⟩ :=
  ⟨rfl, rfl⟩

/-- C1, amended: for every tenant id that does not reference an existing
tenant, `getCurrentUsage` succeeds and returns a snapshot whose
`plan_limits` are the free tier's limits (the missing plan is defaulted
to `'free'`); no not-found condition is raised. -/
theorem getCurrentUsage_missing_tenant_defaults_free (db : DB) (tid now som : Nat)
    (h : db.tenants.filter (fun t => t.id == tid) = []) :
    ∃ s, getCurrentUsage db tid now som = Except.ok s
      ∧ s.plan_limits = planLimits "free" := by
  refine ⟨_, rfl, ?_⟩
  show planLimits (tenantPlanOf db.tenants tid) = planLimits "free"
  unfold tenantPlanOf
  rw [h]
  rfl

/-- Witness for the amended C1 at a concrete store. -/
theorem getCurrentUsage_missing_tenant_defaults_free_witness :
    emptyDB.tenants.filter (fun t => t.id == 999) = []
      ∧ ∃ s, getCurrentUsage emptyDB 999 0 0 = Except.ok s
          ∧ s.plan_limits = planLimits "free" :=
  ⟨rfl, getCurrentUsage_missing_tenant_defaults_free emptyDB 999 0 0 rfl⟩

/-- C2, counterexample: a tenant whose stored plan is the (non-empty)
unknown string `"gold"` does not receive free's limits — the object
lookup `planLimits[tenantPlan]` yields `undefined` (`none`), which is
not `free`'s limit record. -/
theorem getCurrentUsage_unknown_plan_cex :
    goldDB.tenants = [⟨1, "gold"⟩]
      ∧ getCurrentUsage goldDB 1 0 0 = Except.ok ⟨0, 0, 0, 0, 0, none⟩
      ∧ planLimits "free" = some ⟨100, 50, 10⟩ :=
  ⟨rfl, rfl, rfl⟩

/-- C2, amended: for a tenant whose stored plan value is a non-empty
string outside the four known tiers, `getCurrentUsage` still succeeds
but the snapshot's `plan_limits` is `none` (JavaScript `undefined`): the
free fallback of `|| 'free'` applies only to a missing row or an empty
plan string, not to an arbitrary unrecognized value. -/
theorem getCurrentUsage_unknown_plan_limits_none (db : DB) (tid now som : Nat)
    (tn : Tenant)
    (hfind : (db.tenants.filter (fun t => t.id == tid)).head? = some tn)
    (hne : tn.plan ≠ "") (h1 : tn.plan ≠ "free") (h2 : tn.plan ≠ "basic")
    (h3 : tn.plan ≠ "premium") (h4 : tn.plan ≠ "enterprise") :
    ∃ s, getCurrentUsage db tid now som = Except.ok s
      ∧ s.plan_limits = none := by
  refine ⟨_, rfl, ?_⟩
  show planLimits (tenantPlanOf db.tenants tid) = none
  unfold tenantPlanOf
  rw [hfind]
  simp [planLimits, hne, h1, h2, h3, h4]

/-- Witness for the amended C2 at a concrete store. -/
theorem getCurrentUsage_unknown_plan_limits_none_witness :
    (goldDB.tenants.filter (fun t => t.id == 1)).head? = some ⟨1, "gold"⟩
      ∧ ∃ s, getCurrentUsage goldDB 1 0 0 = Except.ok s
          ∧ s.plan_limits = none :=
  ⟨rfl, getCurrentUsage_unknown_plan_limits_none goldDB 1 0 0 ⟨1, "gold"⟩ rfl
    (by decide) (by decide) (by decide) (by decide) (by decide)⟩

/-- C5: the plan-limit table maps the four tiers to their literal quota
records, the snapshot's `plan_limits` is exactly the table lookup of the
tenant's (defaulted) plan, and replacing the tenants table — in
particular changing the tenant's plan — changes nothing in the snapshot
except `plan_limits`; the query itself performs no state mutation (it is
a pure function of the store). -/
theorem planLimits_table_and_snapshot_dependence (db : DB) (tenants2 : List Tenant)
    (tid now som : Nat) :
    planLimits "free" = some ⟨100, 50, 10⟩
      ∧ planLimits "basic" = some ⟨1000, 500, 100⟩
      ∧ planLimits "premium" = some ⟨10000, 5000, 1000⟩
      ∧ planLimits "enterprise" = some ⟨100000, 50000, 10000⟩
      ∧ ∃ s s2, getCurrentUsage db tid now som = Except.ok s
          ∧ getCurrentUsage { db with tenants := tenants2 } tid now som = Except.ok s2
          ∧ s.plan_limits = planLimits (tenantPlanOf db.tenants tid)
          ∧ s2.plan_limits = planLimits (tenantPlanOf tenants2 tid)
          ∧ s2.messages_today = s.messages_today
          ∧ s2.messages_this_month = s.messages_this_month
          ∧ s2.ai_requests_today = s.ai_requests_today
          ∧ s2.ai_requests_this_month = s.ai_requests_this_month
          ∧ s2.storage_used_mb = s.storage_used_mb :=
  ⟨rfl, rfl, rfl, rfl, _, _, rfl, rfl, rfl, rfl, rfl, rfl, rfl, rfl, rfl⟩

/-- C10: `storage_used_mb` is the ceiling of the tenant's summed document
`file_size` (all documents, regardless of processing status or date)
divided by 1,048,576 — characterized both by the code's formula and by
the two ceiling inequalities — and a single one-byte document yields
`storage_used_mb = 1`, not 0. -/
theorem storage_used_mb_ceiling (db : DB) (tid now som : Nat) :
    (∃ s, getCurrentUsage db tid now som = Except.ok s
      ∧ s.storage_used_mb = mathCeilDiv (sumFileSizes db.documents tid) 1048576
      ∧ sumFileSizes db.documents tid ≤ s.storage_used_mb * 1048576
      ∧ s.storage_used_mb * 1048576 < sumFileSizes db.documents tid + 1048576)
      ∧ (∃ s1, getCurrentUsage oneByteDB 1 0 0 = Except.ok s1
          ∧ s1.storage_used_mb = 1) := by
  constructor
  · refine ⟨_, rfl, rfl, ?_, ?_⟩
    · show sumFileSizes db.documents tid ≤
        mathCeilDiv (sumFileSizes db.documents tid) (1024 * 1024) * 1048576
      unfold mathCeilDiv
      omega
    · show mathCeilDiv (sumFileSizes db.documents tid) (1024 * 1024) * 1048576 <
        sumFileSizes db.documents tid + 1048576
      unfold mathCeilDiv
      omega
  · exact ⟨_, rfl, rfl⟩

/-- C7: `getUsageStatistics` returns exactly the stored rows matching the
tenant and the supplied inclusive bounds (as a permutation of the
filter), in ascending date order (pairwise, hence adjacentwise), and an
empty match — zero history or a non-existent tenant — yields the empty
list rather than an error. -/
theorem getUsageStatistics_filter_sorted (db : DB) (input : GetUsageStatisticsInput) :
    List.Perm (getUsageStatistics db input) (db.usage.filter (usageMatches input))
      ∧ List.Pairwise (fun a b => a.date ≤ b.date) (getUsageStatistics db input)
      ∧ (db.usage.filter (usageMatches input) = [] → getUsageStatistics db input = []) := by
  refine ⟨List.perm_insertionSort dateLe _, ?_, ?_⟩
  · exact List.sorted_insertionSort dateLe _
  · intro h
    unfold getUsageStatistics
    rw [h]
    rfl

/-- Witness for C7: the empty-match case returns the empty sequence. -/
theorem getUsageStatistics_filter_sorted_witness :
    getUsageStatistics emptyDB ⟨5, none, none⟩ = [] :=
  (getUsageStatistics_filter_sorted emptyDB ⟨5, none, none⟩).2.2 rfl

/-- The two branches of `recordDailyUsage`, written with the named update
function and insert row. -/
theorem recordDailyUsage_def (db : DB) (t d now : Nat) :
    recordDailyUsage db t d now =
      if 0 < (db.usage.filter (usageKeyMatches t (startOfDay d))).length then
        (((db.usage.map (updOf db t d)).filter (usageKeyMatches t (startOfDay d))).head?,
          { db with usage := db.usage.map (updOf db t d) })
      else
        (some (newRecordOf db t d now),
          { db with usage := db.usage ++ [newRecordOf db t d now], nextUsageId := db.nextUsageId + 1 }) := rfl

/-- The update of the update path leaves the tenant-day key columns
unchanged. -/
theorem usageKeyMatches_updOf (db : DB) (t d tid nd : Nat) (r : UsageStatistics) :
    usageKeyMatches tid nd (updOf db t d r) = usageKeyMatches tid nd r := by
  unfold updOf
  split
  · rfl
  · rfl

/-- On a key-matching row, the update replaces the five count columns. -/
theorem updOf_of_key (db : DB) (t d : Nat) (r : UsageStatistics)
    (hk : usageKeyMatches t (startOfDay d) r = true) :
    updOf db t d r =
      applyCounts (countMessagesSent db.messages t (startOfDay d) (endOfDay d))
        (countMessagesReceived db.messages t (startOfDay d) (endOfDay d))
        (countAiRequests db.messages t (startOfDay d) (endOfDay d))
        (countKbQueries db.documents t (startOfDay d) (endOfDay d))
        (countActiveConnections db.connections t) r := by
  unfold updOf
  simp only [hk]
  exact if_pos trivial

/-- On any other row, the update is the identity. -/
theorem updOf_of_not_key (db : DB) (t d : Nat) (r : UsageStatistics)
    (hk : usageKeyMatches t (startOfDay d) r = false) :
    updOf db t d r = r := by
  unfold updOf
  simp only [hk]
  exact if_neg (by simp)

/-- Filtering by any tenant-day key commutes with the update map. -/
theorem filter_map_updOf (db : DB) (t d tid nd : Nat) (l : List UsageStatistics) :
    (l.map (updOf db t d)).filter (usageKeyMatches tid nd)
      = (l.filter (usageKeyMatches tid nd)).map (updOf db t d) := by
  rw [List.filter_map]
  congr 1
  apply List.filter_congr
  intro a _
  exact usageKeyMatches_updOf db t d tid nd a

/-- Applying the update twice is the same as applying it once. -/
theorem updOf_idem (db : DB) (t d : Nat) (r : UsageStatistics) :
    updOf db t d (updOf db t d r) = updOf db t d r := by
  by_cases hk : usageKeyMatches t (startOfDay d) r = true
  · rw [updOf_of_key db t d r hk]
    have hk2 : usageKeyMatches t (startOfDay d)
        (applyCounts (countMessagesSent db.messages t (startOfDay d) (endOfDay d))
          (countMessagesReceived db.messages t (startOfDay d) (endOfDay d))
          (countAiRequests db.messages t (startOfDay d) (endOfDay d))
          (countKbQueries db.documents t (startOfDay d) (endOfDay d))
          (countActiveConnections db.connections t) r) = true := hk
    rw [updOf_of_key db t d _ hk2]
    rfl
  · have hk2 : usageKeyMatches t (startOfDay d) r = false := by
      simpa using hk
    rw [updOf_of_not_key db t d r hk2, updOf_of_not_key db t d r hk2]

/-- The row returned by `recordDailyUsage` exists (on both paths) and
carries the tenant id, the normalized date, and exactly the five freshly
computed activity counts. -/
theorem recordDailyUsage_fst_spec (db : DB) (t d now : Nat) :
    ∃ a, (recordDailyUsage db t d now).1 = some a
      ∧ a.tenant_id = t
      ∧ a.date = startOfDay d
      ∧ a.messages_sent = countMessagesSent db.messages t (startOfDay d) (endOfDay d)
      ∧ a.messages_received = countMessagesReceived db.messages t (startOfDay d) (endOfDay d)
      ∧ a.ai_requests = countAiRequests db.messages t (startOfDay d) (endOfDay d)
      ∧ a.knowledge_base_queries = countKbQueries db.documents t (startOfDay d) (endOfDay d)
      ∧ a.active_connections = countActiveConnections db.connections t := by
  rw [recordDailyUsage_def]
  by_cases hb : 0 < (db.usage.filter (usageKeyMatches t (startOfDay d))).length
  · rw [if_pos hb]
    obtain ⟨x, xs, hx⟩ : ∃ x xs,
        db.usage.filter (usageKeyMatches t (startOfDay d)) = x :: xs := by
      cases hcase : db.usage.filter (usageKeyMatches t (startOfDay d)) with
      | nil => rw [hcase] at hb; simp at hb
      | cons x xs => exact ⟨x, xs, rfl⟩
    have hk : usageKeyMatches t (startOfDay d) x = true := by
      have hmem : x ∈ db.usage.filter (usageKeyMatches t (startOfDay d)) := by
        rw [hx]; exact List.mem_cons_self x xs
      exact (List.mem_filter.mp hmem).2
    have hkey := hk
    simp only [usageKeyMatches, Bool.and_eq_true, beq_iff_eq] at hkey
    refine ⟨updOf db t d x, ?_, ?_⟩
    · show ((db.usage.map (updOf db t d)).filter
        (usageKeyMatches t (startOfDay d))).head? = some (updOf db t d x)
      rw [filter_map_updOf, hx]
      rfl
    · rw [updOf_of_key db t d x hk]
      exact ⟨hkey.1, hkey.2, rfl, rfl, rfl, rfl, rfl⟩
  · rw [if_neg hb]
    exact ⟨newRecordOf db t d now, rfl, rfl, rfl, rfl, rfl, rfl, rfl, rfl⟩

/-- Calling `recordDailyUsage` again for the same tenant and day, with
the activity tables unchanged, returns the same row. -/
theorem recordDailyUsage_idem (db : DB) (t d n1 n2 : Nat) :
    (recordDailyUsage (recordDailyUsage db t d n1).2 t d n2).1
      = (recordDailyUsage db t d n1).1 := by
  by_cases hb : 0 < (db.usage.filter (usageKeyMatches t (startOfDay d))).length
  · have e1 : recordDailyUsage db t d n1 =
        (((db.usage.map (updOf db t d)).filter (usageKeyMatches t (startOfDay d))).head?,
          { db with usage := db.usage.map (updOf db t d) }) := by
      rw [recordDailyUsage_def, if_pos hb]
    rw [e1]
    have hb2 : 0 < ((({ db with usage := db.usage.map (updOf db t d) } : DB)).usage.filter
        (usageKeyMatches t (startOfDay d))).length := by
      show 0 < ((db.usage.map (updOf db t d)).filter
        (usageKeyMatches t (startOfDay d))).length
      rw [filter_map_updOf, List.length_map]
      exact hb
    rw [recordDailyUsage_def, if_pos hb2]
    show (((db.usage.map (updOf db t d)).map (updOf db t d)).filter
        (usageKeyMatches t (startOfDay d))).head? = _
    have hmm : (db.usage.map (updOf db t d)).map (updOf db t d)
        = db.usage.map (updOf db t d) := by
      rw [List.map_map]
      exact congrArg (fun g => db.usage.map g) (funext (updOf_idem db t d))
    rw [hmm]
  · have e1 : recordDailyUsage db t d n1 =
        (some (newRecordOf db t d n1),
          { db with usage := db.usage ++ [newRecordOf db t d n1], nextUsageId := db.nextUsageId + 1 }) := by
      rw [recordDailyUsage_def, if_neg hb]
    rw [e1]
    have hk : usageKeyMatches t (startOfDay d) (newRecordOf db t d n1) = true := by
      simp [usageKeyMatches, newRecordOf]
    have hb2 : 0 < ((({ db with usage := db.usage ++ [newRecordOf db t d n1], nextUsageId := db.nextUsageId + 1 } : DB)).usage.filter
          (usageKeyMatches t (startOfDay d))).length := by
      show 0 < ((db.usage ++ [newRecordOf db t d n1]).filter
        (usageKeyMatches t (startOfDay d))).length
      rw [List.filter_append, List.length_append]
      simp [hk]
    rw [recordDailyUsage_def, if_pos hb2]
    show (((db.usage ++ [newRecordOf db t d n1]).map (updOf db t d)).filter
        (usageKeyMatches t (startOfDay d))).head? = some (newRecordOf db t d n1)
    rw [filter_map_updOf, List.filter_append]
    have hnil : db.usage.filter (usageKeyMatches t (startOfDay d)) = [] := by
      rw [← List.length_eq_zero]
      omega
    rw [hnil]
    have hsingle : List.filter (usageKeyMatches t (startOfDay d))
        [newRecordOf db t d n1] = [newRecordOf db t d n1] := by
      simp [hk]
    rw [List.nil_append, hsingle]
    have hfix : updOf db t d (newRecordOf db t d n1) = newRecordOf db t d n1 := by
      rw [updOf_of_key db t d _ hk]
      rfl
    rw [List.map_cons, List.map_nil, hfix]
    rfl

/-- How one `recordDailyUsage` call changes the number of rows stored
under an arbitrary tenant-day key: the update path never changes it, the
insert path adds one exactly under the inserted key. -/
theorem filter_length_after_record (db : DB) (t d now tid nd : Nat) :
    (((recordDailyUsage db t d now).2.usage).filter (usageKeyMatches tid nd)).length
      = if 0 < (db.usage.filter (usageKeyMatches t (startOfDay d))).length then
          (db.usage.filter (usageKeyMatches tid nd)).length
        else
          (db.usage.filter (usageKeyMatches tid nd)).length
            + (if usageKeyMatches tid nd (newRecordOf db t d now) then 1 else 0) := by
  rw [recordDailyUsage_def]
  by_cases hb : 0 < (db.usage.filter (usageKeyMatches t (startOfDay d))).length
  · rw [if_pos hb, if_pos hb]
    show ((db.usage.map (updOf db t d)).filter (usageKeyMatches tid nd)).length = _
    rw [filter_map_updOf, List.length_map]
  · rw [if_neg hb, if_neg hb]
    show ((db.usage ++ [newRecordOf db t d now]).filter (usageKeyMatches tid nd)).length = _
    rw [List.filter_append, List.length_append]
    congr 1
    by_cases hk : usageKeyMatches tid nd (newRecordOf db t d now) = true
    · simp [hk]
    · simp only [Bool.not_eq_true] at hk
      simp [hk]

/-- One `recordDailyUsage` call preserves the at-most-one-row-per-key
invariant. -/
theorem uniqueKeys_preserved (db : DB) (t d now : Nat) (h : UniqueKeys db.usage) :
    UniqueKeys ((recordDailyUsage db t d now).2.usage) := by
  intro tid nd
  rw [filter_length_after_record]
  by_cases hb : 0 < (db.usage.filter (usageKeyMatches t (startOfDay d))).length
  · rw [if_pos hb]
    exact h tid nd
  · rw [if_neg hb]
    by_cases hk : usageKeyMatches tid nd (newRecordOf db t d now) = true
    · have hkey := hk
      simp only [usageKeyMatches, newRecordOf, Bool.and_eq_true, beq_iff_eq] at hkey
      rw [if_pos hk]
      have h0 : (db.usage.filter (usageKeyMatches tid nd)).length = 0 := by
        rw [← hkey.1, ← hkey.2]
        omega
      omega
    · rw [if_neg hk]
      have := h tid nd
      omega

/-- After a `recordDailyUsage` call on a store satisfying the invariant,
exactly one row is stored under the written tenant-day key. -/
theorem filter_length_one_after_record (db : DB) (t d now : Nat)
    (h : UniqueKeys db.usage) :
    (((recordDailyUsage db t d now).2.usage).filter
      (usageKeyMatches t (startOfDay d))).length = 1 := by
  rw [filter_length_after_record]
  by_cases hb : 0 < (db.usage.filter (usageKeyMatches t (startOfDay d))).length
  · rw [if_pos hb]
    have := h t (startOfDay d)
    omega
  · rw [if_neg hb]
    have hk : usageKeyMatches t (startOfDay d) (newRecordOf db t d now) = true := by
      simp [usageKeyMatches, newRecordOf]
    rw [if_pos hk]
    omega

/-- Any sequence of `recordDailyUsage` calls preserves the invariant. -/
theorem applyCalls_uniqueKeys (calls : List (Nat × Nat × Nat)) (db : DB)
    (h : UniqueKeys db.usage) : UniqueKeys (applyCalls db calls).usage := by
  induction calls generalizing db with
  | nil => exact h
  | cons c rest ih => exact ih _ (uniqueKeys_preserved db c.1 c.2.1 c.2.2 h)

/-- C3: on a store with at most one usage row per tenant-day key, calling
`recordDailyUsage` twice in succession with no intervening activity
change returns the same row both times (in particular identical count
content), leaves exactly one stored row under `(t, normalized d)`, and
any sequence of `recordDailyUsage` calls keeps at most one row per
`(tenant_id, date)` pair. -/
theorem recordDailyUsage_idempotent_upsert (db : DB) (t d n1 n2 : Nat)
    (calls : List (Nat × Nat × Nat)) (h : UniqueKeys db.usage) :
    (recordDailyUsage (recordDailyUsage db t d n1).2 t d n2).1
        = (recordDailyUsage db t d n1).1
      ∧ (∃ a, (recordDailyUsage db t d n1).1 = some a)
      ∧ (((recordDailyUsage (recordDailyUsage db t d n1).2 t d n2).2.usage).filter
          (usageKeyMatches t (startOfDay d))).length = 1
      ∧ UniqueKeys (applyCalls db calls).usage := by
  refine ⟨recordDailyUsage_idem db t d n1 n2, ?_, ?_, applyCalls_uniqueKeys calls db h⟩
  · obtain ⟨a, ha, _⟩ := recordDailyUsage_fst_spec db t d n1
    exact ⟨a, ha⟩
  · exact filter_length_one_after_record (recordDailyUsage db t d n1).2 t d n2
      (uniqueKeys_preserved db t d n1 h)

/-- Witness for C3 at a concrete store. -/
theorem recordDailyUsage_idempotent_upsert_witness :
    UniqueKeys emptyDB.usage
      ∧ ((recordDailyUsage (recordDailyUsage emptyDB 1 86400005 3).2 1 86400005 4).1
            = (recordDailyUsage emptyDB 1 86400005 3).1
          ∧ (∃ a, (recordDailyUsage emptyDB 1 86400005 3).1 = some a)
          ∧ (((recordDailyUsage (recordDailyUsage emptyDB 1 86400005 3).2 1 86400005 4).2.usage).filter
              (usageKeyMatches 1 (startOfDay 86400005))).length = 1
          ∧ UniqueKeys (applyCalls emptyDB [(1, 5, 0), (2, 999, 1)]).usage) := by
  have h : UniqueKeys emptyDB.usage := by
    intro tid nd
    simp [emptyDB]
  exact ⟨h, recordDailyUsage_idempotent_upsert emptyDB 1 86400005 3 4
    [(1, 5, 0), (2, 999, 1)] h⟩

/-- C4: the row returned by `recordDailyUsage` carries exactly the day's
activity counts — outbound messages in the closed day window as
`messages_sent`, inbound as `messages_received`, bot-flagged as
`ai_requests`, processed documents updated in the window as
`knowledge_base_queries`, and currently connected connections (no date
filter) as `active_connections`. -/
theorem recordDailyUsage_count_correctness (db : DB) (t d now : Nat) :
    ∃ a, (recordDailyUsage db t d now).1 = some a
      ∧ a.tenant_id = t
      ∧ a.date = startOfDay d
      ∧ a.messages_sent = countMessagesSent db.messages t (startOfDay d) (endOfDay d)
      ∧ a.messages_received = countMessagesReceived db.messages t (startOfDay d) (endOfDay d)
      ∧ a.ai_requests = countAiRequests db.messages t (startOfDay d) (endOfDay d)
      ∧ a.knowledge_base_queries = countKbQueries db.documents t (startOfDay d) (endOfDay d)
      ∧ a.active_connections = countActiveConnections db.connections t :=
  recordDailyUsage_fst_spec db t d now

/-- C8: two timestamps with the same normalized day produce literally the
same call result (returned row and resulting store) — any finer-grained
time-of-day information is discarded — and the targeted record's key
date is the start of the input's calendar day. -/
theorem recordDailyUsage_day_normalization (db : DB) (t d1 d2 now : Nat)
    (h : startOfDay d1 = startOfDay d2) :
    recordDailyUsage db t d1 now = recordDailyUsage db t d2 now
      ∧ ∃ a, (recordDailyUsage db t d1 now).1 = some a ∧ a.date = startOfDay d1 := by
  constructor
  · unfold recordDailyUsage
    rw [h]
  · obtain ⟨a, ha, _, hd, _⟩ := recordDailyUsage_fst_spec db t d1 now
    exact ⟨a, ha, hd⟩

/-- Witness for C8: 1970-01-02T00:00:00.005 and 1970-01-02T00:00:00.999
(any two instants of the same calendar day) target the same record. -/
theorem recordDailyUsage_day_normalization_witness :
    startOfDay 86400005 = startOfDay 86400999
      ∧ (recordDailyUsage emptyDB 1 86400005 7 = recordDailyUsage emptyDB 1 86400999 7
          ∧ ∃ a, (recordDailyUsage emptyDB 1 86400005 7).1 = some a
              ∧ a.date = startOfDay 86400005) :=
  ⟨by decide, recordDailyUsage_day_normalization emptyDB 1 86400005 86400999 7 (by decide)⟩

/-- C9: on the update path (a row already exists for the tenant-day), the
store keeps the same rows in place; the matching rows get exactly the
five freshly computed count values (replaced, not added to the prior
values), their `id`, `tenant_id`, `date` and `created_at` are unchanged,
and non-matching rows are untouched. -/
theorem recordDailyUsage_update_frame (db : DB) (t d now : Nat)
    (h : 0 < (db.usage.filter (usageKeyMatches t (startOfDay d))).length) :
    ((recordDailyUsage db t d now).2.usage).length = db.usage.length
      ∧ ∀ i r r2, db.usage.get? i = some r
          → ((recordDailyUsage db t d now).2.usage).get? i = some r2
          → r2.id = r.id ∧ r2.tenant_id = r.tenant_id ∧ r2.date = r.date
            ∧ r2.created_at = r.created_at
            ∧ (usageKeyMatches t (startOfDay d) r = true →
                r2.messages_sent = countMessagesSent db.messages t (startOfDay d) (endOfDay d)
                ∧ r2.messages_received
                    = countMessagesReceived db.messages t (startOfDay d) (endOfDay d)
                ∧ r2.ai_requests = countAiRequests db.messages t (startOfDay d) (endOfDay d)
                ∧ r2.knowledge_base_queries
                    = countKbQueries db.documents t (startOfDay d) (endOfDay d)
                ∧ r2.active_connections = countActiveConnections db.connections t)
            ∧ (usageKeyMatches t (startOfDay d) r = false → r2 = r) := by
  rw [recordDailyUsage_def, if_pos h]
  constructor
  · show ((db.usage.map (updOf db t d)).length) = db.usage.length
    exact List.length_map db.usage (updOf db t d)
  · intro i r r2 hr hr2
    have hr2b : (db.usage.map (updOf db t d)).get? i = some r2 := hr2
    rw [List.get?_map, hr, Option.map_some'] at hr2b
    have hru : r2 = updOf db t d r := (Option.some.inj hr2b).symm
    subst hru
    by_cases hk : usageKeyMatches t (startOfDay d) r = true
    · rw [updOf_of_key db t d r hk]
      refine ⟨rfl, rfl, rfl, rfl, fun _ => ⟨rfl, rfl, rfl, rfl, rfl⟩, fun hfalse => ?_⟩
      rw [hk] at hfalse
      exact absurd hfalse (by simp)
    · have hk2 : usageKeyMatches t (startOfDay d) r = false := by
        simpa using hk
      rw [updOf_of_not_key db t d r hk2]
      refine ⟨rfl, rfl, rfl, rfl, fun htrue => ?_, fun _ => rfl⟩
      rw [hk2] at htrue
      exact absurd htrue (by simp)

/-- Witness for C9 at the seeded store: the stored `messages_sent = 10`
is overwritten with the freshly computed count. -/
theorem recordDailyUsage_update_frame_witness :
    0 < (seededDB.usage.filter (usageKeyMatches 1 (startOfDay 0))).length
      ∧ (((recordDailyUsage seededDB 1 0 0).2.usage).length = seededDB.usage.length
          ∧ ∀ i r r2, seededDB.usage.get? i = some r
              → ((recordDailyUsage seededDB 1 0 0).2.usage).get? i = some r2
              → r2.id = r.id ∧ r2.tenant_id = r.tenant_id ∧ r2.date = r.date
                ∧ r2.created_at = r.created_at
                ∧ (usageKeyMatches 1 (startOfDay 0) r = true →
                    r2.messages_sent
                        = countMessagesSent seededDB.messages 1 (startOfDay 0) (endOfDay 0)
                    ∧ r2.messages_received
                        = countMessagesReceived seededDB.messages 1 (startOfDay 0) (endOfDay 0)
                    ∧ r2.ai_requests
                        = countAiRequests seededDB.messages 1 (startOfDay 0) (endOfDay 0)
                    ∧ r2.knowledge_base_queries
                        = countKbQueries seededDB.documents 1 (startOfDay 0) (endOfDay 0)
                    ∧ r2.active_connections = countActiveConnections seededDB.connections 1)
                ∧ (usageKeyMatches 1 (startOfDay 0) r = false → r2 = r)) :=
  ⟨by decide, recordDailyUsage_update_frame seededDB 1 0 0 (by decide)⟩

/-- The report loop accumulates the sum of per-day message totals. -/
theorem foldl_reportStep_totalMessages (l : List UsageStatistics) (acc : ReportAcc) :
    (l.foldl reportStep acc).totalMessages = acc.totalMessages + sumTotals l := by
  induction l generalizing acc with
  | nil => simp [sumTotals]
  | cons x l ih =>
    rw [List.foldl_cons, ih]
    simp [sumTotals, reportStep]
    omega

/-- The report loop accumulates the sum of `ai_requests`. -/
theorem foldl_reportStep_totalAi (l : List UsageStatistics) (acc : ReportAcc) :
    (l.foldl reportStep acc).totalAiRequests = acc.totalAiRequests + sumAiRequests l := by
  induction l generalizing acc with
  | nil => simp [sumAiRequests]
  | cons x l ih =>
    rw [List.foldl_cons, ih]
    simp [sumAiRequests, reportStep]
    omega

/-- The report loop's running peak value is the maximum of its seed and
the maximum per-day total of the list. -/
theorem foldl_reportStep_peakMessages (l : List UsageStatistics) (acc : ReportAcc) :
    (l.foldl reportStep acc).peakDayMessages
      = max acc.peakDayMessages (maxTotal l) := by
  induction l generalizing acc with
  | nil => simp [maxTotal]
  | cons x l ih =>
    rw [List.foldl_cons, ih]
    simp only [reportStep, maxTotal]
    simp only [Nat.max_def]
    split_ifs <;> omega

/-- The report loop's peak day: unchanged when nothing beats the seed,
otherwise the date of the first row attaining the list's maximum. -/
theorem foldl_reportStep_peakDay (l : List UsageStatistics) (acc : ReportAcc) :
    (l.foldl reportStep acc).peakDay
      = if maxTotal l ≤ acc.peakDayMessages then acc.peakDay
        else firstPeakDay (maxTotal l) l := by
  induction l generalizing acc with
  | nil => simp [maxTotal]
  | cons x l ih =>
    rw [List.foldl_cons, ih]
    by_cases hgt : dayMessagesOf x > acc.peakDayMessages
    · have hsp : (reportStep acc x).peakDayMessages = dayMessagesOf x := by
        simp [reportStep, hgt]
      have hsd : (reportStep acc x).peakDay = some x.date := by
        simp [reportStep, hgt]
      rw [hsp, hsd]
      by_cases hml : maxTotal l ≤ dayMessagesOf x
      · rw [if_pos hml]
        have hmx : maxTotal (x :: l) = dayMessagesOf x := by
          simp only [maxTotal]
          exact Nat.max_eq_left hml
        rw [hmx, if_neg (by omega)]
        unfold firstPeakDay
        rw [List.find?_cons_of_pos _ (by simp)]
        rfl
      · rw [if_neg hml]
        have hmx : maxTotal (x :: l) = maxTotal l := by
          simp only [maxTotal]
          exact Nat.max_eq_right (by omega)
        rw [hmx, if_neg (by omega)]
        unfold firstPeakDay
        rw [List.find?_cons_of_neg _ (by simp; omega)]
    · have hsp : (reportStep acc x).peakDayMessages = acc.peakDayMessages := by
        simp [reportStep, hgt]
      have hsd : (reportStep acc x).peakDay = acc.peakDay := by
        simp [reportStep, hgt]
      rw [hsp, hsd]
      by_cases hml : maxTotal l ≤ acc.peakDayMessages
      · rw [if_pos hml]
        rw [if_pos (show maxTotal (x :: l) ≤ acc.peakDayMessages from by
          simp only [maxTotal, Nat.max_def]
          split_ifs <;> omega)]
      · rw [if_neg hml]
        have hmx : maxTotal (x :: l) = maxTotal l := by
          simp only [maxTotal]
          exact Nat.max_eq_right (by omega)
        rw [hmx, if_neg hml]
        unfold firstPeakDay
        rw [List.find?_cons_of_neg _ (by simp; omega)]

/-- C6, counterexample: with one in-range record whose `sent + received`
total is 0, the source's strict `>` against an initial peak of 0 never
fires, so `peak_day` is `null` even though a record exists — the claim
allows `null` only when no records exist. -/
theorem generateUsageReport_zero_peak_cex :
    (generateUsageReport zeroPeakDB 1 0 100).summary.peak_day = none
      ∧ (generateUsageReport zeroPeakDB 1 0 100).daily_breakdown = [⟨0, 0, 0, 5⟩] := by
  constructor
  · rfl
  · rfl

/-- C6, amended: over the in-range records (ascending by date),
`total_messages` sums `sent + received` (equivalently over the unsorted
filter), `total_ai_requests` sums `ai_requests`, `avg_daily_messages` is
the half-up rounding of `total_messages / record count` and 0 when no
records exist, `peak_day_messages` is the maximum per-day total, and
`peak_day` is the date of the first record attaining that maximum —
except that when the maximum is 0 (no records, or all records with zero
messages) `peak_day` is `null`. -/
theorem generateUsageReport_summary_spec (db : DB) (t sd ed : Nat) :
    (generateUsageReport db t sd ed).summary.total_messages
        = sumTotals (reportRecords db t sd ed)
      ∧ (generateUsageReport db t sd ed).summary.total_messages
          = sumTotals (db.usage.filter (reportRangeFilter t sd ed))
      ∧ (generateUsageReport db t sd ed).summary.total_ai_requests
          = sumAiRequests (reportRecords db t sd ed)
      ∧ (generateUsageReport db t sd ed).summary.avg_daily_messages
          = (if (reportRecords db t sd ed).length = 0 then 0
             else mathRoundDiv (sumTotals (reportRecords db t sd ed))
               (reportRecords db t sd ed).length)
      ∧ (generateUsageReport db t sd ed).summary.peak_day_messages
          = maxTotal (reportRecords db t sd ed)
      ∧ (generateUsageReport db t sd ed).summary.peak_day
          = (if maxTotal (reportRecords db t sd ed) = 0 then none
             else firstPeakDay (maxTotal (reportRecords db t sd ed))
               (reportRecords db t sd ed)) := by
  have h1 := foldl_reportStep_totalMessages (reportRecords db t sd ed) ⟨0, 0, none, 0⟩
  have h2 := foldl_reportStep_totalAi (reportRecords db t sd ed) ⟨0, 0, none, 0⟩
  have h3 := foldl_reportStep_peakMessages (reportRecords db t sd ed) ⟨0, 0, none, 0⟩
  have h4 := foldl_reportStep_peakDay (reportRecords db t sd ed) ⟨0, 0, none, 0⟩
  have hperm : sumTotals (reportRecords db t sd ed)
      = sumTotals (db.usage.filter (reportRangeFilter t sd ed)) := by
    unfold sumTotals
    exact ((List.perm_insertionSort dateLe
      (db.usage.filter (reportRangeFilter t sd ed))).map dayMessagesOf).sum_eq
  refine ⟨?_, ?_, ?_, ?_, ?_, ?_⟩
  · show (List.foldl reportStep ⟨0, 0, none, 0⟩ (reportRecords db t sd ed)).totalMessages
      = sumTotals (reportRecords db t sd ed)
    rw [h1]
    simp
  · show (List.foldl reportStep ⟨0, 0, none, 0⟩ (reportRecords db t sd ed)).totalMessages
      = sumTotals (db.usage.filter (reportRangeFilter t sd ed))
    rw [h1]
    simp [hperm]
  · show (List.foldl reportStep ⟨0, 0, none, 0⟩ (reportRecords db t sd ed)).totalAiRequests
      = sumAiRequests (reportRecords db t sd ed)
    rw [h2]
    simp
  · show mathRoundDiv
        (List.foldl reportStep ⟨0, 0, none, 0⟩ (reportRecords db t sd ed)).totalMessages
        (if (reportRecords db t sd ed).length == 0 then 1
         else (reportRecords db t sd ed).length) = _
    rw [h1]
    by_cases hlen : (reportRecords db t sd ed).length = 0
    · have hnil : reportRecords db t sd ed = [] := List.length_eq_zero.mp hlen
      rw [hnil]
      rfl
    · rw [if_neg hlen]
      have hbeq : ((reportRecords db t sd ed).length == 0) = false := by
        simpa using hlen
      rw [hbeq]
      simp
  · show (List.foldl reportStep ⟨0, 0, none, 0⟩ (reportRecords db t sd ed)).peakDayMessages
      = maxTotal (reportRecords db t sd ed)
    rw [h3]
    simp
  · show (List.foldl reportStep ⟨0, 0, none, 0⟩ (reportRecords db t sd ed)).peakDay
      = _
    rw [h4]
    have hred : (⟨0, 0, none, 0⟩ : ReportAcc).peakDayMessages = 0 := rfl
    rw [hred]
    by_cases hz : maxTotal (reportRecords db t sd ed) = 0
    · rw [if_pos (by omega : maxTotal (reportRecords db t sd ed) ≤ 0), if_pos hz]
    · rw [if_neg (by omega : ¬ maxTotal (reportRecords db t sd ed) ≤ 0), if_neg hz]

end AppUsage
